import Mathlib

/-!
Shallow embedding of `horovod/torch/mpi_ops.py`: the PyTorch binding layer for
the Horovod native communication engine.  Tensors are modelled with an explicit
type name, dtype, device, contiguity flag, shape and flat (row-major) integer
data.  The native engine is an external collaborator: it is modelled as an
oracle `Env.engine` mapping a dispatched native call to the data it writes into
the output tensor, and the module-level side table `_handle_map` together with
the sequence of native calls issued forms the state `HvdState` threaded through
the operations.  Python exceptions are modelled with `Except PyError`.
-/

namespace MpiOps

/-- Tensor dtypes relevant to this layer (`torch.float16` is the one the code
inspects explicitly). -/
inductive DType
  | float16
  | float32
  | float64
  | int32
  deriving DecidableEq, Repr

/-- Model of a PyTorch tensor as seen by this binding layer: `typeName` is the
string returned by `tensor.type()`, `deviceType` is `tensor.device.type`,
`contiguous` is `tensor.is_contiguous()`, and `data` is the flat row-major
contents. -/
structure Tensor where
  typeName : String
  dtype : DType
  deviceType : String
  contiguous : Bool
  shape : List Nat
  data : List Int
  deriving DecidableEq, Repr

/-- Reduction operations exported by the module (`Average`, `Sum`, `Adasum`). -/
inductive ReduceOp
  | Average
  | Sum
  | Adasum
  deriving DecidableEq, Repr

/-- Python exceptions raised by this layer. -/
inductive PyError
  | valueError (msg : String)
  | notImplementedError (msg : String)
  deriving DecidableEq, Repr

/-- Record of one invocation of a native engine entry point, with the arguments
the Python code passes. -/
inductive NativeCall
  | allreduceCall (fn : String) (input output : Tensor) (divisor : Nat)
      (name : Option String) (op : ReduceOp)
  | allgatherCall (fn : String) (input output : Tensor) (name : Option String)
  | broadcastCall (fn : String) (input output : Tensor) (rootRank : Nat)
      (name : Option String)
  | waitAndClear (handle : Nat)
  | joinCall (device : Int)
  deriving DecidableEq, Repr

/-- Ambient configuration: the PyTorch version gate `_v2_api`, the process
topology queries from `_basics` (`size`, `local_size`, `rank`, `nccl_built`,
`is_homogeneous`), `gpu_available('torch')`, the set of entry point names the
native library exports (`hasattr(mpi_lib, ...)`), and oracles for the data the
engine writes into output tensors and for the result of the native join. -/
structure Env where
  v2_api : Bool
  size : Nat
  local_size : Nat
  rank : Nat
  nccl_built : Bool
  is_homogeneous : Bool
  gpu_available : Bool
  exported : List String
  engine : NativeCall → List Int
  joinResult : Int → Int

/-- Mutable module state: the side table `_handle_map` (handle → (input,
output), kept to protect tensors from garbage collection), a fresh-handle
counter standing for the engine's handle issuance, the log of native calls
made so far, and a count of warnings emitted via `warnings.warn`. -/
structure HvdState where
  handle_map : List (Nat × Tensor × Tensor)
  nextHandle : Nat
  calls : List NativeCall
  warned : Nat
  deriving DecidableEq, Repr

/-- String substitution `tensor.type().replace('.', '_')`, performed on the
underlying character list. -/
def replaceDotUnderscore (s : String) : String :=
  String.mk (s.data.map (fun c => if c = '.' then '_' else c))

/-- Flag `_fp16_supported = _v2_api`: fp16 allreduce only with the v2 API. -/
def _fp16_supported (env : Env) : Bool :=
  env.v2_api

/-- Entry point name for allreduce on a given tensor type. -/
def _allreduce_function_factory (t : Tensor) : String :=
  "horovod_torch_allreduce_async_" ++ replaceDotUnderscore t.typeName

/-- Entry point name for allgather on a given tensor type. -/
def _allgather_function_factory (t : Tensor) : String :=
  "horovod_torch_allgather_async_" ++ replaceDotUnderscore t.typeName

/-- Entry point name for broadcast on a given tensor type. -/
def _broadcast_function_factory (t : Tensor) : String :=
  "horovod_torch_broadcast_async_" ++ replaceDotUnderscore t.typeName

/-- Validation performed by `_check_function`: the native library must export
the per-type entry point (checked first), and the tensor must be contiguous
(checked second); on success the entry point name is returned. -/
def _check_function (env : Env) (function_factory : Tensor → String)
    (tensor : Tensor) : Except PyError String :=
  let function := function_factory tensor
  if env.exported.contains function = false then
    .error (.valueError "Tensor type is not supported.")
  else if tensor.contiguous = false then
    .error (.valueError "Tensor is required to be contiguous.")
  else
    .ok function

/-- Modelled from the spec: `horovod.common.util.num_rank_is_power_2` is not
under src; the spec states that Adasum requires power-of-two rank counts, so
this predicate decides whether `n` is a power of two. -/
def num_rank_is_power_2 (n : Nat) : Bool :=
  (List.range (n + 1)).any (fun k => n == 2 ^ k)

/-- Divisor selection of `_allreduce_async` (the branch on `op` at lines
100-121): returns the divisor together with a flag recording whether the
GPU-Adasum-over-MPI warning was emitted, or the raised error.  The Python
expression `int(size() / local_size())` is modelled by natural division. -/
def allreduceDivisor (env : Env) (tensor : Tensor) (op : ReduceOp) :
    Except PyError (Nat × Bool) :=
  if op = ReduceOp.Average then
    .ok (env.size, false)
  else if op = ReduceOp.Adasum then
    if tensor.deviceType ≠ "cpu" ∧ env.gpu_available = true then
      if env.nccl_built = true then
        if env.is_homogeneous = false then
          .error (.notImplementedError
            "Running GPU Adasum on heterogeneous cluster is not supported yet.")
        else if num_rank_is_power_2 (env.size / env.local_size) = false then
          .error (.notImplementedError
            "Running GPU Adasum with non-power of 2 nodes is not supported yet.")
        else
          .ok (env.local_size, false)
      else
        .ok (1, true)
    else
      if num_rank_is_power_2 env.size = false then
        .error (.notImplementedError
          "Running Adasum with non-power of 2 ranks is not supported yet.")
      else
        .ok (1, false)
  else
    .ok (1, false)

/-- State after a successful native allreduce dispatch: the engine issues the
fresh handle, the call is logged, the output tensor (with the data the engine
will have written by completion) is recorded in the side table, and the warning
counter advances when the dispatch emitted a warning. -/
def afterAllreduceDispatch (env : Env) (st : HvdState) (tensor output : Tensor)
    (divisor : Nat) (name : Option String) (op : ReduceOp) (warnFlag : Bool) :
    HvdState :=
  let call := NativeCall.allreduceCall (_allreduce_function_factory tensor)
    tensor output divisor name op
  { handle_map := (st.nextHandle, tensor, { output with data := env.engine call })
      :: st.handle_map,
    nextHandle := st.nextHandle + 1,
    calls := st.calls ++ [call],
    warned := st.warned + (if warnFlag then 1 else 0) }

/-- Core asynchronous allreduce dispatch `_allreduce_async(tensor, output,
name, op)`: fp16 capability check first, then divisor selection, then the
`Average` to `Sum` translation, then `_check_function`, then the native call
whose handle is recorded in the side table. -/
def _allreduce_async (env : Env) (tensor output : Tensor) (name : Option String)
    (op : ReduceOp) (st : HvdState) : Except PyError (Nat × HvdState) :=
  if tensor.dtype = DType.float16 ∧ _fp16_supported env = false then
    .error (.notImplementedError
      "float16 allreduce is not supported for PyTorch version < 1.0.0")
  else
    match allreduceDivisor env tensor op with
    | .error e => .error e
    | .ok (divisor, warnFlag) =>
      let true_op := if op = ReduceOp.Average then ReduceOp.Sum else op
      match _check_function env _allreduce_function_factory tensor with
      | .error e => .error e
      | .ok _ =>
        .ok (st.nextHandle,
          afterAllreduceDispatch env st tensor output divisor name true_op warnFlag)

/-- Modelled from the spec: `horovod.common.util
.get_average_backwards_compatibility_fun` is not under src; per the module
docstrings, `op` supersedes the deprecated `average` flag, a bare
`average=True` / `average=False` maps to `Average` / `Sum`, and the default is
`Average`. -/
def handle_average_backwards_compatibility (op : Option ReduceOp)
    (average : Option Bool) : ReduceOp :=
  match op with
  | some o => o
  | none =>
    match average with
    | some b => if b then ReduceOp.Average else ReduceOp.Sum
    | none => ReduceOp.Average

/-- Fresh tensor `t.new(shape)`: same type, dtype and device, given shape,
uninitialised data modelled as zeros. -/
def Tensor.newShaped (t : Tensor) (shape : List Nat) : Tensor :=
  { t with shape := shape, data := List.replicate shape.prod 0 }

/-- Fresh empty tensor `t.new()`. -/
def Tensor.newEmpty (t : Tensor) : Tensor :=
  { t with shape := [0], data := [] }

/-- Asynchronous allreduce `allreduce_async(tensor, average, name, op)`:
resolves the legacy `average` flag, allocates a fresh output of the same shape
and dispatches. -/
def allreduce_async (env : Env) (tensor : Tensor) (average : Option Bool)
    (name : Option String) (op : Option ReduceOp) (st : HvdState) :
    Except PyError (Nat × HvdState) :=
  let op := handle_average_backwards_compatibility op average
  let output := tensor.newShaped tensor.shape
  _allreduce_async env tensor output name op st

/-- In-place asynchronous allreduce `allreduce_async_(tensor, average, name,
op)`: the input tensor is reused as the output. -/
def allreduce_async_ (env : Env) (tensor : Tensor) (average : Option Bool)
    (name : Option String) (op : Option ReduceOp) (st : HvdState) :
    Except PyError (Nat × HvdState) :=
  let op := handle_average_backwards_compatibility op average
  _allreduce_async env tensor tensor name op st

/-- Lookup in the side table `_handle_map`. -/
def lookupHandle : List (Nat × Tensor × Tensor) → Nat → Option (Tensor × Tensor)
  | [], _ => none
  | (k, i, o) :: rest, h => if k = h then some (i, o) else lookupHandle rest h

/-- Removal of a handle's entry from the side table (`_handle_map.pop`). -/
def removeHandle (m : List (Nat × Tensor × Tensor)) (h : Nat) :
    List (Nat × Tensor × Tensor) :=
  m.filter (fun e => e.1 != h)

/-- Handle synchronisation `synchronize(handle)`: an unknown handle returns
nothing and leaves the state untouched; a known handle blocks on the native
`wait_and_clear`, removes the side-table entry and returns the output tensor. -/
def synchronize (st : HvdState) (handle : Nat) : Option Tensor × HvdState :=
  match lookupHandle st.handle_map handle with
  | none => (none, st)
  | some (_, output) =>
    (some output,
      { st with
        calls := st.calls ++ [NativeCall.waitAndClear handle],
        handle_map := removeHandle st.handle_map handle })

/-- Modelled from the spec: the compression plug-in interface with the default
`Compression.none`, whose compress is the identity with a trivial context. -/
def compression_none_compress (t : Tensor) : Tensor × Unit :=
  (t, ())

/-- Modelled from the spec: `Compression.none` decompress is the identity. -/
def compression_none_decompress (t : Tensor) (_ : Unit) : Tensor :=
  t

/-- Synchronous allreduce `allreduce(tensor, average, name, compression, op)`
with the default `Compression.none`: compress, dispatch through the autograd
forward (`HorovodAllreduce.forward` = `allreduce_async` + `synchronize`), then
decompress the synchronised output. -/
def allreduce (env : Env) (tensor : Tensor) (average : Option Bool)
    (name : Option String) (op : Option ReduceOp) (st : HvdState) :
    Except PyError (Option Tensor × HvdState) :=
  let (tensor_compressed, c) := compression_none_compress tensor
  match allreduce_async env tensor_compressed average name op st with
  | .error e => .error e
  | .ok (handle, st1) =>
    let (res, st2) := synchronize st1 handle
    .ok (res.map (fun t => compression_none_decompress t c), st2)

/-- Backward pass of `HorovodAllreduce`: another allreduce of the incoming
gradient, with the `average` flag and `op` recorded in the context at forward
time (the three trailing `None` gradients of the Python 4-tuple are omitted). -/
def HorovodAllreduce_backward (env : Env) (ctxAverage : Option Bool)
    (ctxOp : Option ReduceOp) (grad_output : Tensor) (st : HvdState) :
    Except PyError (Option Tensor × HvdState) :=
  allreduce env grad_output ctxAverage none ctxOp st

/-- Core asynchronous allgather dispatch `_allgather_async(tensor, output,
name)`: `_check_function`, then the native call whose handle is recorded in
the side table. -/
def _allgather_async (env : Env) (tensor output : Tensor) (name : Option String)
    (st : HvdState) : Except PyError (Nat × HvdState) :=
  match _check_function env _allgather_function_factory tensor with
  | .error e => .error e
  | .ok fn =>
    let call := NativeCall.allgatherCall fn tensor output name
    .ok (st.nextHandle,
      { handle_map := (st.nextHandle, tensor, { output with data := env.engine call })
          :: st.handle_map,
        nextHandle := st.nextHandle + 1,
        calls := st.calls ++ [call],
        warned := st.warned })

/-- Asynchronous allgather `allgather_async(tensor, name)`: allocates an empty
output (the engine resizes it) and dispatches. -/
def allgather_async (env : Env) (tensor : Tensor) (name : Option String)
    (st : HvdState) : Except PyError (Nat × HvdState) :=
  _allgather_async env tensor (tensor.newEmpty) name st

/-- Synchronous allgather `allgather(tensor, name)` through the autograd apply
(`HorovodAllgather.forward` = `allgather_async` + `synchronize`). -/
def allgather (env : Env) (tensor : Tensor) (name : Option String)
    (st : HvdState) : Except PyError (Option Tensor × HvdState) :=
  match allgather_async env tensor name st with
  | .error e => .error e
  | .ok (handle, st1) =>
    let (res, st2) := synchronize st1 handle
    .ok (res, st2)

/-- Core asynchronous broadcast dispatch `_broadcast_async(tensor, output,
root_rank, name)`. -/
def _broadcast_async (env : Env) (tensor output : Tensor) (root_rank : Nat)
    (name : Option String) (st : HvdState) : Except PyError (Nat × HvdState) :=
  match _check_function env _broadcast_function_factory tensor with
  | .error e => .error e
  | .ok fn =>
    let call := NativeCall.broadcastCall fn tensor output root_rank name
    .ok (st.nextHandle,
      { handle_map := (st.nextHandle, tensor, { output with data := env.engine call })
          :: st.handle_map,
        nextHandle := st.nextHandle + 1,
        calls := st.calls ++ [call],
        warned := st.warned })

/-- Row size of a row-major tensor: number of scalar entries per index of
dimension 0. -/
def rowSize (shape : List Nat) : Nat :=
  (shape.drop 1).prod

/-- Slice `t.narrow(0, start, length)` along dimension 0 (modelled for the
non-negative starts this layer uses). -/
def Tensor.narrow0 (t : Tensor) (start : Int) (length : Nat) : Tensor :=
  { t with
    shape := length :: t.shape.drop 1,
    data := (t.data.drop (start.toNat * rowSize t.shape)).take
      (length * rowSize t.shape) }

/-- Scalar `torch.sum(t).item()`. -/
def Tensor.sumAll (t : Tensor) : Int :=
  t.data.sum

/-- Reshape `t.view(n)` to the one-dimensional shape `[n]`. -/
def Tensor.view1 (t : Tensor) (n : Nat) : Tensor :=
  { t with shape := [n] }

/-- In-place scalar multiplication `t *= c`. -/
def Tensor.mulScalar (t : Tensor) (c : Int) : Tensor :=
  { t with data := t.data.map (fun x => c * x) }

/-- Fresh CPU tensor `torch.IntTensor([v])`. -/
def intTensor1 (v : Int) : Tensor :=
  { typeName := "torch.IntTensor", dtype := DType.int32, deviceType := "cpu",
    contiguous := true, shape := [1], data := [v] }

/-- Backward pass of `HorovodAllgather`: sum-allreduce the incoming gradient
(`average=False`), allgather the per-rank dimension-0 sizes via
`torch.IntTensor([ctx.dim])`, compute the offset of the calling rank's slice as
the sum of the first `rank()` gathered sizes (0 when the rank is 0), and return
`grad_reduced.narrow(0, offset, ctx.dim)`. -/
def HorovodAllgather_backward (env : Env) (ctxDim : Nat) (grad_output : Tensor)
    (st : HvdState) : Except PyError (Option Tensor × HvdState) :=
  match allreduce env grad_output (some false) none none st with
  | .error e => .error e
  | .ok (none, st1) => .ok (none, st1)
  | .ok (some grad_reduced, st1) =>
    let dim_t := intTensor1 (ctxDim : Int)
    match allgather env dim_t none st1 with
    | .error e => .error e
    | .ok (none, st2) => .ok (none, st2)
    | .ok (some gathered, st2) =>
      let dim := gathered.view1 env.size
      let r := env.rank
      let offset : Int := if r ≠ 0 then (dim.narrow0 0 r).sumAll else 0
      .ok (some (grad_reduced.narrow0 offset ctxDim), st2)

/-- Backward pass of `HorovodBroadcast`: sum-allreduce the incoming gradient
(`average=False`) and zero it in place on every rank other than the root rank
recorded at forward time. -/
def HorovodBroadcast_backward (env : Env) (ctxRootRank : Nat)
    (grad_output : Tensor) (st : HvdState) :
    Except PyError (Option Tensor × HvdState) :=
  match allreduce env grad_output (some false) none none st with
  | .error e => .error e
  | .ok (none, st1) => .ok (none, st1)
  | .ok (some grad_reduced, st1) =>
    .ok (some (if env.rank ≠ ctxRootRank then grad_reduced.mulScalar 0
      else grad_reduced), st1)

/-- Join barrier `join(device)`: raises when the v2 API is unavailable,
otherwise forwards the device selector to the native `horovod_torch_join` and
returns the id of the last rank to join. -/
def join (env : Env) (device : Int) (st : HvdState) :
    Except PyError (Int × HvdState) :=
  if env.v2_api = false then
    .error (.notImplementedError "Join Op is not supported for PyTorch < 1.0")
  else
    .ok (env.joinResult device,
      { st with calls := st.calls ++ [NativeCall.joinCall device] })

/-! Concrete fixtures used by witnesses and counterexamples. -/

/-- Sample contiguous CPU float tensor. -/
def tFloat : Tensor :=
  { typeName := "torch.FloatTensor", dtype := DType.float32,
    deviceType := "cpu", contiguous := true, shape := [2], data := [1, 2] }

/-- Sample contiguous GPU float tensor. -/
def tGpu : Tensor :=
  { typeName := "torch.cuda.FloatTensor", dtype := DType.float32,
    deviceType := "cuda", contiguous := true, shape := [2], data := [1, 2] }

/-- Sample contiguous CPU half-precision tensor. -/
def tHalf : Tensor :=
  { typeName := "torch.HalfTensor", dtype := DType.float16,
    deviceType := "cpu", contiguous := true, shape := [2], data := [1, 2] }

/-- Entry points exported by the sample native library. -/
def baseExports : List String :=
  ["horovod_torch_allreduce_async_torch_FloatTensor",
   "horovod_torch_allreduce_async_torch_cuda_FloatTensor",
   "horovod_torch_allreduce_async_torch_HalfTensor",
   "horovod_torch_allgather_async_torch_IntTensor",
   "horovod_torch_allgather_async_torch_FloatTensor",
   "horovod_torch_broadcast_async_torch_FloatTensor"]

/-- Sample engine oracle: allgather calls produce the list `[3, 2]`, all other
calls produce `[10, 20, 30, 40, 50]`. -/
def engine0 : NativeCall → List Int
  | NativeCall.allgatherCall _ _ _ _ => [3, 2]
  | _ => [10, 20, 30, 40, 50]

/-- Sample environment: v2 API, 4 processes on 4 nodes, CPU only. -/
def env0 : Env :=
  { v2_api := true, size := 4, local_size := 1, rank := 1, nccl_built := false,
    is_homogeneous := true, gpu_available := false, exported := baseExports,
    engine := engine0, joinResult := fun _ => 3 }

/-- Initial empty state. -/
def st0 : HvdState :=
  { handle_map := [], nextHandle := 0, calls := [], warned := 0 }

/-- State holding one pending handle, for the synchronize witness. -/
def stWith : HvdState :=
  { handle_map := [(0, tFloat, tGpu)], nextHandle := 1, calls := [], warned := 0 }

/-! Helper lemmas shared between claims. -/

/-- Looking a handle up after removing it from the side table yields nothing. -/
theorem lookupHandle_removeHandle (m : List (Nat × Tensor × Tensor)) (h : Nat) :
    lookupHandle (removeHandle m h) h = none := by
  induction m with
  | nil => rfl
  | cons e rest ih =>
    obtain ⟨k, i, o⟩ := e
    by_cases hk : k = h
    · simpa [removeHandle, List.filter_cons, hk] using ih
    · simp only [removeHandle, List.filter_cons] at ih ⊢
      simp [hk, lookupHandle, ih]

/-! Claim theorems. -/

/-- C1: for every tensor and name, `allreduce_async` and `allreduce_async_`
with `op=Average` dispatch the native allreduce with operation `Sum` and
divisor `size()`, and with `op=Sum` they dispatch with operation `Sum` and
divisor 1, so `Average` equals `Sum` divided by the process count at the
divisor level. -/
theorem allreduce_async_divisor_policy
    (env : Env) (t : Tensor) (name : Option String) (st : HvdState)
    (hfp : ¬ (t.dtype = DType.float16 ∧ _fp16_supported env = false))
    (hex : _allreduce_function_factory t ∈ env.exported)
    (hc : t.contiguous = true) :
    allreduce_async env t none name (some ReduceOp.Average) st =
      .ok (st.nextHandle, afterAllreduceDispatch env st t
        (t.newShaped t.shape) env.size name ReduceOp.Sum false) ∧
    allreduce_async env t none name (some ReduceOp.Sum) st =
      .ok (st.nextHandle, afterAllreduceDispatch env st t
        (t.newShaped t.shape) 1 name ReduceOp.Sum false) ∧
    allreduce_async_ env t none name (some ReduceOp.Average) st =
      .ok (st.nextHandle, afterAllreduceDispatch env st t
        t env.size name ReduceOp.Sum false) ∧
    allreduce_async_ env t none name (some ReduceOp.Sum) st =
      .ok (st.nextHandle, afterAllreduceDispatch env st t
        t 1 name ReduceOp.Sum false) := by
  refine ⟨?_, ?_, ?_, ?_⟩ <;>
    simp [allreduce_async, allreduce_async_,
      handle_average_backwards_compatibility, _allreduce_async,
      allreduceDivisor, _check_function, hex, hc, hfp]

/-- C1 witness: concrete instance of the divisor policy, with divisor 4 on a
4-process environment for `Average`. -/
theorem allreduce_async_divisor_policy_witness :
    tFloat.contiguous = true ∧
    allreduce_async env0 tFloat none none (some ReduceOp.Average) st0 =
      .ok (0, afterAllreduceDispatch env0 st0 tFloat
        (tFloat.newShaped tFloat.shape) 4 none ReduceOp.Sum false) :=
  ⟨by decide,
    (allreduce_async_divisor_policy env0 tFloat none st0 (by decide) (by decide)
      (by decide)).1⟩

/-- C2: synchronising an unknown handle (including one already synchronised)
returns nothing and leaves the side table untouched; the first synchronize of
a known handle removes its entry and returns the output tensor, and a second
synchronize of the same handle returns nothing and changes nothing. -/
theorem synchronize_at_most_once (st : HvdState) (h : Nat) :
    (lookupHandle st.handle_map h = none → synchronize st h = (none, st)) ∧
    (∀ inp out, lookupHandle st.handle_map h = some (inp, out) →
      ∃ st', synchronize st h = (some out, st') ∧
        st'.handle_map = removeHandle st.handle_map h ∧
        lookupHandle st'.handle_map h = none ∧
        synchronize st' h = (none, st')) := by
  constructor
  · intro hnone
    simp [synchronize, hnone]
  · intro inp out hsome
    have hs : synchronize st h =
        (some out,
          { st with
            calls := st.calls ++ [NativeCall.waitAndClear h],
            handle_map := removeHandle st.handle_map h }) := by
      simp [synchronize, hsome]
    exact ⟨_, hs, rfl, lookupHandle_removeHandle st.handle_map h,
      by simp [synchronize, lookupHandle_removeHandle st.handle_map h]⟩

/-- C2 witness: on a state holding handle 0, the first synchronize returns the
output and removes the entry, and the second returns nothing. -/
theorem synchronize_at_most_once_witness :
    lookupHandle stWith.handle_map 0 = some (tFloat, tGpu) ∧
    (∃ st', synchronize stWith 0 = (some tGpu, st') ∧
      st'.handle_map = removeHandle stWith.handle_map 0 ∧
      lookupHandle st'.handle_map 0 = none ∧
      synchronize st' 0 = (none, st')) :=
  ⟨by decide, (synchronize_at_most_once stWith 0).2 tFloat tGpu (by decide)⟩

/-- Environment on a PyTorch version below 1.0.0 (no v2 API). -/
def envOld : Env :=
  { env0 with v2_api := false }

/-- C9: for every float16 tensor, `_allreduce_async` (and therefore
`allreduce_async` and `allreduce_async_`) raises the not-implemented
capability error when the v2 engine API is unavailable, whatever the op, the
exported entry points and the tensor contiguity — so the check precedes the
divisor computation and any native dispatch. -/
theorem allreduce_fp16_capability_gate
    (env : Env) (t output : Tensor) (name : Option String) (op : ReduceOp)
    (avg : Option Bool) (opOpt : Option ReduceOp) (st : HvdState)
    (hdt : t.dtype = DType.float16) (hv2 : env.v2_api = false) :
    _allreduce_async env t output name op st =
      .error (.notImplementedError
        "float16 allreduce is not supported for PyTorch version < 1.0.0") ∧
    allreduce_async env t avg name opOpt st =
      .error (.notImplementedError
        "float16 allreduce is not supported for PyTorch version < 1.0.0") ∧
    allreduce_async_ env t avg name opOpt st =
      .error (.notImplementedError
        "float16 allreduce is not supported for PyTorch version < 1.0.0") := by
  refine ⟨?_, ?_, ?_⟩ <;>
    simp [allreduce_async, allreduce_async_, _allreduce_async, _fp16_supported,
      hdt, hv2]

/-- C9 witness: a float16 tensor on the pre-1.0.0 environment is rejected even
with `op=Adasum` on a non-power-of-two size and an exported entry point. -/
theorem allreduce_fp16_capability_gate_witness :
    tHalf.dtype = DType.float16 ∧ envOld.v2_api = false ∧
    _allreduce_async envOld tHalf (tHalf.newShaped tHalf.shape) none
        ReduceOp.Adasum st0 =
      .error (.notImplementedError
        "float16 allreduce is not supported for PyTorch version < 1.0.0") :=
  ⟨by decide, by decide,
    (allreduce_fp16_capability_gate envOld tHalf (tHalf.newShaped tHalf.shape)
      none ReduceOp.Adasum none none st0 (by decide) (by decide)).1⟩

/-- C10: `join` raises the not-implemented error without any native call when
the v2 API is unavailable, and otherwise forwards the device selector to the
native join and returns its result. -/
theorem join_v2_gate (env : Env) (device : Int) (st : HvdState) :
    (env.v2_api = false → join env device st =
      .error (.notImplementedError "Join Op is not supported for PyTorch < 1.0")) ∧
    (env.v2_api = true → join env device st =
      .ok (env.joinResult device,
        { st with calls := st.calls ++ [NativeCall.joinCall device] })) := by
  constructor <;> intro hv <;> simp [join, hv]

/-- C10 witness: concrete joins on the v2 and pre-v2 environments. -/
theorem join_v2_gate_witness :
    env0.v2_api = true ∧ envOld.v2_api = false ∧
    join env0 (-1) st0 =
      .ok (3, { st0 with calls := [NativeCall.joinCall (-1)] }) ∧
    join envOld (-1) st0 =
      .error (.notImplementedError "Join Op is not supported for PyTorch < 1.0") :=
  ⟨rfl, rfl, (join_v2_gate env0 (-1) st0).2 rfl, (join_v2_gate envOld (-1) st0).1 rfl⟩

/-- C8: each async collective dispatch first raises a validation error when
the native library does not export the per-type entry point, then raises a
validation error when the tensor is not contiguous, and otherwise issues the
native operation and returns a handle (for allreduce, under the earlier fp16
capability check and a successful divisor computation). -/
theorem async_dispatch_validation
    (env : Env) (t output : Tensor) (name : Option String) (root : Nat)
    (st : HvdState) (op : ReduceOp) (d : Nat) (w : Bool)
    (hfp : ¬ (t.dtype = DType.float16 ∧ _fp16_supported env = false))
    (hdiv : allreduceDivisor env t op = .ok (d, w)) :
    ((_allgather_function_factory t ∉ env.exported →
        _allgather_async env t output name st =
          .error (.valueError "Tensor type is not supported.")) ∧
     (_allgather_function_factory t ∈ env.exported → t.contiguous = false →
        _allgather_async env t output name st =
          .error (.valueError "Tensor is required to be contiguous.")) ∧
     (_allgather_function_factory t ∈ env.exported → t.contiguous = true →
        ∃ st', _allgather_async env t output name st = .ok (st.nextHandle, st') ∧
          st'.calls = st.calls ++ [NativeCall.allgatherCall
            (_allgather_function_factory t) t output name])) ∧
    ((_broadcast_function_factory t ∉ env.exported →
        _broadcast_async env t output root name st =
          .error (.valueError "Tensor type is not supported.")) ∧
     (_broadcast_function_factory t ∈ env.exported → t.contiguous = false →
        _broadcast_async env t output root name st =
          .error (.valueError "Tensor is required to be contiguous.")) ∧
     (_broadcast_function_factory t ∈ env.exported → t.contiguous = true →
        ∃ st', _broadcast_async env t output root name st = .ok (st.nextHandle, st') ∧
          st'.calls = st.calls ++ [NativeCall.broadcastCall
            (_broadcast_function_factory t) t output root name])) ∧
    ((_allreduce_function_factory t ∉ env.exported →
        _allreduce_async env t output name op st =
          .error (.valueError "Tensor type is not supported.")) ∧
     (_allreduce_function_factory t ∈ env.exported → t.contiguous = false →
        _allreduce_async env t output name op st =
          .error (.valueError "Tensor is required to be contiguous.")) ∧
     (_allreduce_function_factory t ∈ env.exported → t.contiguous = true →
        ∃ st', _allreduce_async env t output name op st = .ok (st.nextHandle, st') ∧
          st'.calls = st.calls ++ [NativeCall.allreduceCall
            (_allreduce_function_factory t) t output d name
            (if op = ReduceOp.Average then ReduceOp.Sum else op)])) := by
  refine ⟨⟨?_, ?_, ?_⟩, ⟨?_, ?_, ?_⟩, ⟨?_, ?_, ?_⟩⟩ <;> intro h1 <;>
    first
    | (intro h2 <;>
        simp [_allgather_async, _broadcast_async, _allreduce_async,
          _check_function, afterAllreduceDispatch, hfp, hdiv, h1, h2])
    | simp [_allgather_async, _broadcast_async, _allreduce_async,
        _check_function, afterAllreduceDispatch, hfp, hdiv, h1]

/-- C8 witness: concrete validation outcomes for an unexported double tensor, a
non-contiguous tensor and a valid float tensor. -/
theorem async_dispatch_validation_witness :
    allreduceDivisor env0 tFloat ReduceOp.Sum = .ok (1, false) ∧
    (∃ st', _allgather_async env0 tFloat (tFloat.newEmpty) none st0 =
        .ok (0, st') ∧
      st'.calls = [NativeCall.allgatherCall
        (_allgather_function_factory tFloat) tFloat (tFloat.newEmpty) none]) :=
  ⟨rfl,
    (async_dispatch_validation env0 tFloat (tFloat.newEmpty) none 0 st0
      ReduceOp.Sum 1 false (by decide) rfl).1.2.2 (by decide) (by decide)⟩

/-- Heterogeneous NCCL GPU cluster. -/
def envHetero : Env :=
  { env0 with
    gpu_available := true, nccl_built := true, is_homogeneous := false,
    size := 4, local_size := 2 }

/-- Homogeneous NCCL GPU cluster with a power-of-two node count. -/
def envNccl : Env :=
  { env0 with
    gpu_available := true, nccl_built := true, size := 4, local_size := 2 }

/-- Homogeneous NCCL GPU cluster with 6 ranks on 2 nodes: a non-power-of-two
rank count with a power-of-two node count. -/
def envNccl6 : Env :=
  { env0 with
    gpu_available := true, nccl_built := true, size := 6, local_size := 3 }

/-- CPU-only cluster with 3 ranks (not a power of two). -/
def envCpu3 : Env :=
  { env0 with size := 3 }

/-- C4 counterexample: on a heterogeneous NCCL GPU cluster, a GPU Adasum
allreduce raises a not-implemented error instead of falling back to CPU with a
warning as the claim states. -/
theorem adasum_gpu_hetero_raises :
    allreduce_async envHetero tGpu none none (some ReduceOp.Adasum) st0 =
      .error (.notImplementedError
        "Running GPU Adasum on heterogeneous cluster is not supported yet.") := by
  rfl

/-- C4 amended: a GPU Adasum request falls back (warning, divisor 1) only when
NCCL is not built; with NCCL built, a heterogeneous cluster or a
non-power-of-two node count raises a not-implemented error, and a homogeneous
power-of-two-node NCCL cluster dispatches with the topology-dependent divisor
`local_size()`. -/
theorem adasum_gpu_policy
    (env : Env) (t : Tensor) (name : Option String) (st : HvdState)
    (hdev : t.deviceType ≠ "cpu") (hav : env.gpu_available = true)
    (hfp : ¬ (t.dtype = DType.float16 ∧ _fp16_supported env = false))
    (hex : _allreduce_function_factory t ∈ env.exported)
    (hc : t.contiguous = true) :
    (env.nccl_built = false →
      allreduce_async env t none name (some ReduceOp.Adasum) st =
        .ok (st.nextHandle, afterAllreduceDispatch env st t
          (t.newShaped t.shape) 1 name ReduceOp.Adasum true)) ∧
    (env.nccl_built = true → env.is_homogeneous = false →
      allreduce_async env t none name (some ReduceOp.Adasum) st =
        .error (.notImplementedError
          "Running GPU Adasum on heterogeneous cluster is not supported yet.")) ∧
    (env.nccl_built = true → env.is_homogeneous = true →
      num_rank_is_power_2 (env.size / env.local_size) = false →
      allreduce_async env t none name (some ReduceOp.Adasum) st =
        .error (.notImplementedError
          "Running GPU Adasum with non-power of 2 nodes is not supported yet.")) ∧
    (env.nccl_built = true → env.is_homogeneous = true →
      num_rank_is_power_2 (env.size / env.local_size) = true →
      allreduce_async env t none name (some ReduceOp.Adasum) st =
        .ok (st.nextHandle, afterAllreduceDispatch env st t
          (t.newShaped t.shape) env.local_size name ReduceOp.Adasum false)) := by
  refine ⟨?_, ?_, ?_, ?_⟩ <;> intro h1 <;>
    first
    | (intro h2 <;>
        first
        | (intro h3 <;>
            simp [allreduce_async, handle_average_backwards_compatibility,
              _allreduce_async, allreduceDivisor, _check_function, hdev, hav,
              hfp, hex, hc, h1, h2, h3])
        | simp [allreduce_async, handle_average_backwards_compatibility,
            _allreduce_async, allreduceDivisor, _check_function, hdev, hav,
            hfp, hex, hc, h1, h2])
    | simp [allreduce_async, handle_average_backwards_compatibility,
        _allreduce_async, allreduceDivisor, _check_function, hdev, hav,
        hfp, hex, hc, h1]

/-- C4 amended witness: a homogeneous power-of-two-node NCCL cluster gives
divisor `local_size()` = 2, and a cluster without NCCL warns and uses divisor
1. -/
theorem adasum_gpu_policy_witness :
    envNccl.nccl_built = true ∧ envNccl.is_homogeneous = true ∧
    num_rank_is_power_2 (envNccl.size / envNccl.local_size) = true ∧
    allreduce_async envNccl tGpu none none (some ReduceOp.Adasum) st0 =
      .ok (0, afterAllreduceDispatch envNccl st0 tGpu
        (tGpu.newShaped tGpu.shape) 2 none ReduceOp.Adasum false) :=
  ⟨rfl, rfl, by decide, by
    simpa using (adasum_gpu_policy envNccl tGpu none st0 (by decide) rfl
      (by decide) (by decide) rfl).2.2.2 rfl rfl (by decide)⟩

/-- C5 counterexample: with 6 ranks as 3 processes on each of 2 nodes
(homogeneous, NCCL), a GPU Adasum allreduce dispatches successfully with
divisor `local_size()` even though the rank count 6 is not a power of two, so
no not-implemented error is raised. -/
theorem adasum_non_pow2_ranks_dispatches :
    num_rank_is_power_2 envNccl6.size = false ∧
    allreduce_async envNccl6 tGpu none none (some ReduceOp.Adasum) st0 =
      .ok (0, afterAllreduceDispatch envNccl6 st0 tGpu
        (tGpu.newShaped tGpu.shape) 3 none ReduceOp.Adasum false) :=
  ⟨by decide, by rfl⟩

/-- C5 amended: on the CPU Adasum path (CPU tensor, or no GPU available),
`allreduce_async` and `allreduce_async_` with `op=Adasum` raise a
not-implemented error when the rank count is not a power of two, for every
exported-entry-point set and contiguity — hence before any native engine
lookup or dispatch, with no handle created and the side table unchanged; on
the GPU NCCL path the power-of-two requirement applies to the node count
`size() / local_size()` instead. -/
theorem adasum_cpu_pow2_gate
    (env : Env) (t : Tensor) (avg : Option Bool) (name : Option String)
    (st : HvdState)
    (hfp : ¬ (t.dtype = DType.float16 ∧ _fp16_supported env = false))
    (hcpu : t.deviceType = "cpu" ∨ env.gpu_available = false)
    (hp2 : num_rank_is_power_2 env.size = false) :
    allreduce_async env t avg name (some ReduceOp.Adasum) st =
      .error (.notImplementedError
        "Running Adasum with non-power of 2 ranks is not supported yet.") ∧
    allreduce_async_ env t avg name (some ReduceOp.Adasum) st =
      .error (.notImplementedError
        "Running Adasum with non-power of 2 ranks is not supported yet.") := by
  rcases hcpu with h | h <;> constructor <;>
    simp [allreduce_async, allreduce_async_,
      handle_average_backwards_compatibility, _allreduce_async,
      allreduceDivisor, hfp, h, hp2]

/-- C5 amended witness: a CPU tensor on a 3-rank cluster is rejected even
though its entry point is exported and it is contiguous. -/
theorem adasum_cpu_pow2_gate_witness :
    num_rank_is_power_2 envCpu3.size = false ∧ tFloat.deviceType = "cpu" ∧
    allreduce_async envCpu3 tFloat none none (some ReduceOp.Adasum) st0 =
      .error (.notImplementedError
        "Running Adasum with non-power of 2 ranks is not supported yet.") :=
  ⟨by decide, rfl,
    (adasum_cpu_pow2_gate envCpu3 tFloat none none st0 (by decide)
      (Or.inl rfl) (by decide)).1⟩

/-- Native call issued by a sum allreduce of `g` (`average=False`): operation
`Sum` with divisor 1 on a fresh output of the same shape. -/
def sumReduceCall (g : Tensor) : NativeCall :=
  NativeCall.allreduceCall (_allreduce_function_factory g) g
    (g.newShaped g.shape) 1 none ReduceOp.Sum

/-- Multiplying every entry of a list by zero yields the all-zero list. -/
theorem map_zero_mul (l : List Int) :
    l.map (fun x => 0 * x) = List.replicate l.length 0 := by
  induction l with
  | nil => rfl
  | cons a l ih => simp [ih, List.replicate_succ]

/-- C3 counterexample: with the default forward context (`op=None` resolves to
`Average`), `HorovodAllreduce.backward` dispatches its allreduce with divisor
`size()` = 4, the averaged reduction, not the divisor 1 that the `Sum`
operation carries under the divisor policy. -/
theorem allreduce_backward_averages :
    handle_average_backwards_compatibility none none = ReduceOp.Average ∧
    (HorovodAllreduce_backward env0 none none tFloat st0).map
        (fun r => (r.1.isSome, r.2.calls)) =
      .ok (true, [NativeCall.allreduceCall
        "horovod_torch_allreduce_async_torch_FloatTensor" tFloat
        (tFloat.newShaped tFloat.shape) 4 none ReduceOp.Sum,
        NativeCall.waitAndClear 0]) ∧
    (4 : Nat) ≠ 1 :=
  ⟨rfl, by rfl, by decide⟩

/-- C3 amended: `HorovodAllreduce.backward` performs another allreduce of the
incoming gradient using the `average` flag and `op` recorded at forward time,
so at the native level it dispatches operation `Sum` with divisor `size()`
when the recorded op resolves to `Average` and divisor 1 when it resolves to
`Sum`. -/
theorem allreduce_backward_replays_forward_op
    (env : Env) (g : Tensor) (ctxAvg : Option Bool) (ctxOp : Option ReduceOp)
    (st : HvdState)
    (hfp : ¬ (g.dtype = DType.float16 ∧ _fp16_supported env = false))
    (hex : _allreduce_function_factory g ∈ env.exported)
    (hc : g.contiguous = true)
    (hop : handle_average_backwards_compatibility ctxOp ctxAvg = ReduceOp.Average ∨
      handle_average_backwards_compatibility ctxOp ctxAvg = ReduceOp.Sum) :
    (HorovodAllreduce_backward env ctxAvg ctxOp g st).map
        (fun r => (r.1.isSome, r.2.calls)) =
      .ok (true, st.calls ++
        [NativeCall.allreduceCall (_allreduce_function_factory g) g
          (g.newShaped g.shape)
          (if handle_average_backwards_compatibility ctxOp ctxAvg =
            ReduceOp.Average then env.size else 1) none ReduceOp.Sum,
         NativeCall.waitAndClear st.nextHandle]) := by
  rcases hop with hop | hop <;>
    simp [HorovodAllreduce_backward, allreduce, compression_none_compress,
      compression_none_decompress, allreduce_async, _allreduce_async,
      allreduceDivisor, _check_function, afterAllreduceDispatch, synchronize,
      lookupHandle, Except.map, hop, hex, hc, hfp]

/-- C3 amended witness: a forward context recording `op=Sum` yields a backward
dispatch with divisor 1. -/
theorem allreduce_backward_replays_forward_op_witness :
    handle_average_backwards_compatibility (some ReduceOp.Sum) none =
      ReduceOp.Sum ∧
    (HorovodAllreduce_backward env0 none (some ReduceOp.Sum) tFloat st0).map
        (fun r => (r.1.isSome, r.2.calls)) =
      .ok (true, [NativeCall.allreduceCall (_allreduce_function_factory tFloat)
        tFloat (tFloat.newShaped tFloat.shape) 1 none ReduceOp.Sum,
        NativeCall.waitAndClear 0]) :=
  ⟨rfl, by
    simpa using allreduce_backward_replays_forward_op env0 tFloat none
      (some ReduceOp.Sum) st0 (by decide) (by decide) (by decide)
      (Or.inr rfl)⟩

/-- C7: `HorovodBroadcast.backward` sum-allreduces the incoming gradient
(native operation `Sum`, divisor 1) and returns it multiplied by zero — the
all-zero gradient — on every rank whose `rank()` differs from the recorded
root rank, while the root rank receives the full reduced gradient. -/
theorem broadcast_backward_zeroes_nonroot
    (env : Env) (root : Nat) (g : Tensor) (st : HvdState)
    (hfp : ¬ (g.dtype = DType.float16 ∧ _fp16_supported env = false))
    (hex : _allreduce_function_factory g ∈ env.exported)
    (hc : g.contiguous = true) :
    (HorovodBroadcast_backward env root g st).map
        (fun r => (r.1, r.2.calls)) =
      .ok (some (if env.rank ≠ root
          then Tensor.mulScalar { g with data := env.engine (sumReduceCall g) } 0
          else { g with data := env.engine (sumReduceCall g) }),
        st.calls ++ [sumReduceCall g, NativeCall.waitAndClear st.nextHandle]) ∧
    (Tensor.mulScalar { g with data := env.engine (sumReduceCall g) } 0).data =
      List.replicate (env.engine (sumReduceCall g)).length 0 := by
  constructor
  · by_cases hr : env.rank = root <;>
      simp [HorovodBroadcast_backward, allreduce, compression_none_compress,
        compression_none_decompress, allreduce_async, _allreduce_async,
        allreduceDivisor, _check_function, afterAllreduceDispatch, synchronize,
        lookupHandle, Except.map, handle_average_backwards_compatibility,
        sumReduceCall, Tensor.newShaped, hex, hc, hfp, hr]
  · simp [Tensor.mulScalar, map_zero_mul (env.engine (sumReduceCall g))]

/-- C7 witness: on rank 1 with root rank 0, the returned gradient is the zero
tensor; the dispatched reduction is Sum with divisor 1. -/
theorem broadcast_backward_zeroes_nonroot_witness :
    env0.rank = 1 ∧
    (HorovodBroadcast_backward env0 0 tFloat st0).map
        (fun r => (r.1, r.2.calls)) =
      .ok (some (Tensor.mulScalar
          { tFloat with data := env0.engine (sumReduceCall tFloat) } 0),
        [sumReduceCall tFloat, NativeCall.waitAndClear 0]) :=
  ⟨rfl, by
    simpa using (broadcast_backward_zeroes_nonroot env0 0 tFloat st0
      (by decide) (by decide) (by decide)).1⟩

/-- Native call issued by the auxiliary allgather of the dimension tensor
`torch.IntTensor([ctx.dim])`. -/
def dimGatherCall (ctxDim : Nat) : NativeCall :=
  NativeCall.allgatherCall
    (_allgather_function_factory (intTensor1 (ctxDim : Int)))
    (intTensor1 (ctxDim : Int))
    ((intTensor1 (ctxDim : Int)).newEmpty) none

/-- Dimension tensors are contiguous. -/
@[simp] theorem intTensor1_contiguous (v : Int) :
    (intTensor1 v).contiguous = true :=
  rfl

/-- Sum of a list of naturals embedded into the integers. -/
theorem sum_map_natCast (l : List Nat) :
    (l.map (Nat.cast : Nat → Int)).sum = (l.sum : Int) := by
  induction l with
  | nil => rfl
  | cons a l ih => simp only [List.map_cons, List.sum_cons, ih, Nat.cast_add]

/-- Offset computation of `HorovodAllgather.backward`: summing the first `r`
gathered sizes (with the `r = 0` special case) and truncating to a natural
number yields the sum of the sizes of ranks `0..r-1`. -/
theorem dim_offset_toNat (ds : List Nat) (r : Nat) :
    (if r = 0 then (0 : Int)
      else ((ds.map (Nat.cast : Nat → Int)).take r).sum).toNat =
      (ds.take r).sum := by
  by_cases hr : r = 0
  · simp [hr]
  · rw [if_neg hr, ← List.map_take, sum_map_natCast]
    exact Int.toNat_natCast _

/-- C6: `HorovodAllgather.backward` sum-allreduces the incoming gradient
(native operation `Sum`, divisor 1), gathers the per-rank dimension-0 sizes
`ds` via an auxiliary allgather, and returns the slice of the reduced gradient
whose dimension-0 offset is the sum of the sizes of ranks `0..rank()-1` (0 for
rank 0) and whose dimension-0 length is the calling rank's own size `ctx.dim`:
in flat row-major data, the rows from `(ds.take rank).sum * rowSize` of length
`ctxDim * rowSize`. -/
theorem allgather_backward_slice
    (env : Env) (ctxDim : Nat) (g : Tensor) (st : HvdState) (ds : List Nat)
    (hfp : ¬ (g.dtype = DType.float16 ∧ _fp16_supported env = false))
    (hex : _allreduce_function_factory g ∈ env.exported)
    (hcg : g.contiguous = true)
    (hexa : _allgather_function_factory (intTensor1 (ctxDim : Int)) ∈
      env.exported)
    (hds : env.engine (dimGatherCall ctxDim) = ds.map (Nat.cast : Nat → Int)) :
    (HorovodAllgather_backward env ctxDim g st).map
        (fun r => (r.1, r.2.calls)) =
      .ok (some
        { g with
          shape := ctxDim :: g.shape.drop 1,
          data := ((env.engine (sumReduceCall g)).drop
            ((ds.take env.rank).sum * rowSize g.shape)).take
            (ctxDim * rowSize g.shape) },
        st.calls ++ [sumReduceCall g, NativeCall.waitAndClear st.nextHandle,
          dimGatherCall ctxDim, NativeCall.waitAndClear (st.nextHandle + 1)]) := by
  have hds' : env.engine (NativeCall.allgatherCall
      (_allgather_function_factory (intTensor1 (ctxDim : Int)))
      (intTensor1 (ctxDim : Int)) ((intTensor1 (ctxDim : Int)).newEmpty)
      none) = ds.map (Nat.cast : Nat → Int) := hds
  have hoff := dim_offset_toNat ds env.rank
  simp [HorovodAllgather_backward, allreduce, allgather, allgather_async,
    _allgather_async, compression_none_compress, compression_none_decompress,
    allreduce_async, _allreduce_async, allreduceDivisor, _check_function,
    afterAllreduceDispatch, synchronize, lookupHandle, Except.map,
    handle_average_backwards_compatibility, sumReduceCall, dimGatherCall,
    Tensor.newShaped, Tensor.narrow0, Tensor.view1,
    Tensor.sumAll, rowSize, hds', hex, hcg, hexa, hfp, hoff]

/-- C6 witness: rank 1 with gathered sizes `[3, 2]` and own size 2 slices rows
3 and 4 (data entries 40 and 50) out of the reduced gradient. -/
theorem allgather_backward_slice_witness :
    env0.rank = 1 ∧
    env0.engine (dimGatherCall 2) = [3, 2] ∧
    env0.engine (sumReduceCall tFloat) = [10, 20, 30, 40, 50] ∧
    (HorovodAllgather_backward env0 2 tFloat st0).map
        (fun r => (r.1, r.2.calls)) =
      .ok (some { tFloat with shape := [2], data := [40, 50] },
        [sumReduceCall tFloat, NativeCall.waitAndClear 0,
          dimGatherCall 2, NativeCall.waitAndClear 1]) :=
  ⟨rfl, rfl, rfl, by
    simpa using allgather_backward_slice env0 2 tFloat st0 [3, 2] (by decide)
      (by decide) (by decide) (by decide) rfl⟩

end MpiOps
